import Mathlib

/-!
# Shallow embedding of the YouTube-AI-Scraper pipeline (src/main.py)

This file embeds the URL-to-channel resolution and aggregation pipeline of
`src/main.py` in Lean 4 and proves the specification claims about it.

Python string primitives (`in`, `str.split`, `str.strip`) are modelled as
executable functions over `List Char`; the external collaborators (the
YouTube API client and the two NLP pipelines) are modelled as an oracle
record `YouTube` whose calls either raise (`Except.error`) or return an
item list / value (`Except.ok`), matching the `try`/`except` structure of
the source.  All pipeline functions are total: a Python exception caught
at a boundary is an `Except.error` consumed at the same boundary.
-/

/-- Test whether the character list `s` starts with `pat`.
(Python string prefix test used by the occurrence / split primitives.) -/
def lstartsWith : List Char → List Char → Bool
  | _, [] => true
  | [], _ :: _ => false
  | c :: s, p :: ps => (c == p) && lstartsWith s ps

/-- Test whether `pat` occurs as a contiguous substring of `s`.
Models Python's `pat in s`. -/
def loccurs (pat : List Char) : List Char → Bool
  | [] => lstartsWith [] pat
  | c :: s => lstartsWith (c :: s) pat || loccurs pat s

/-- Fuel-driven worker for Python `str.split(pat)` over character lists:
scans left to right, cutting at each non-overlapping occurrence of `pat`.
`fuel ≥ length s` suffices for a non-empty `pat` (every step consumes at
least one character). -/
def pySplitAux (pat : List Char) : List Char → List Char → Nat → List (List Char)
  | s, acc, 0 => [acc.reverse ++ s]
  | s, acc, fuel + 1 =>
    match s with
    | [] => [acc.reverse]
    | c :: s' =>
      if lstartsWith (c :: s') pat then
        acc.reverse :: pySplitAux pat ((c :: s').drop pat.length) [] fuel
      else
        pySplitAux pat s' (c :: acc) fuel

/-- Python `s.split(pat)` for a non-empty separator `pat`. -/
def pySplit (s pat : String) : List String :=
  (pySplitAux pat.data s.data [] (s.data.length + 1)).map fun l => ⟨l⟩

/-- Python `pat in s` (substring containment). -/
def pyIn (pat s : String) : Bool :=
  loccurs pat.data s.data

/-- Python `s.strip()` : remove leading and trailing whitespace. -/
def pyStrip (s : String) : String :=
  ⟨((s.data.dropWhile Char.isWhitespace).reverse.dropWhile Char.isWhitespace).reverse⟩


/-- One item of a `commentThreads().list` response, reduced to the two
projections the source reads:
`item["snippet"]["topLevelComment"]["snippet"]["authorDisplayName"]` and
`...["textDisplay"]`. -/
structure CommentThreadItem where
  authorDisplayName : String
  textDisplay : String
deriving DecidableEq

/-- The result of the sentiment pipeline, `sentiment[0]` in the source: a
label with a confidence score (a Python float, modelled as a rational). -/
structure SentimentResult where
  label : String
  score : ℚ
deriving DecidableEq

/-- A comment dict appended by `fetch_comments`.  Python dicts may lack a
key: the outer `Option` of `summarized_comment` / `sentiment` records
whether the key is present at all (the "no comments" sentinel dict omits
both), and the inner `Option` is the Python value (`None` on annotation
failure). -/
structure CommentRecord where
  author : String
  text : String
  summarized_comment : Option (Option String) := none
  sentiment : Option (Option SentimentResult) := none
deriving DecidableEq

/-- One item of the `channels().list(part="snippet,statistics")` response,
reduced to the four projections `fetch_channel_data` reads. -/
structure ChannelItem where
  title : String
  description : String
  subscriberCount : String
  viewCount : String
deriving DecidableEq

/-- The dict returned by `fetch_channel_data`. -/
structure ChannelData where
  title : String
  description : String
  subscribers : String
  views : String
deriving DecidableEq

/-- One item of the `search().list(channelId:=..., order:="date")` response,
reduced to the projections `fetch_latest_video_details` reads. -/
structure SearchVideoItem where
  videoId : String
  title : String
  description : String
  publishedAt : String
deriving DecidableEq

/-- The dict returned by `fetch_latest_video_details`. -/
structure VideoData where
  video_id : String
  title : String
  description : String
  published_at : String
  summarized_description : Option String
  sentiment : Option SentimentResult
  comments : List CommentRecord
deriving DecidableEq

/-- Oracle for every external collaborator of the pipeline.  Each field is
one of the distinct external calls of `src/main.py`; `Except.error ()`
models the call raising an exception, `Except.ok items` models a response
whose `"items"` list is `items`.  Fixed request parameters that matter to
the claims are explicit arguments (`maxResults` of `commentThreads`, the
`q` string of the channel search); `videosList`, `channelsListByUsername`
and `searchChannels` items are reduced to the single channel-id string the
source extracts from them. -/
structure YouTube where
  videosList : String → Except Unit (List String)
  channelsListByUsername : String → Except Unit (List String)
  searchChannels : String → Nat → Except Unit (List String)
  channelsListById : String → Except Unit (List ChannelItem)
  searchLatestByChannel : String → Except Unit (List SearchVideoItem)
  commentThreadsList : String → Nat → Except Unit (List CommentThreadItem)
  summarizer : String → Except Unit String
  sentimentAnalyzer : String → Except Unit SentimentResult

/-- Model of `get_channel_from_video` (src/main.py:67-76): list videos by id, return
the first item's `snippet.channelId`; `None` on empty items or exception. -/
def get_channel_from_video (yt : YouTube) (video_id : String) : Option String :=
  match yt.videosList video_id with
  | .error _ => none
  | .ok items => items.head?

/-- Model of `get_channel_from_username` (src/main.py:78-87): list channels by legacy
username, return the first item's `id`; `None` on empty items or exception. -/
def get_channel_from_username (yt : YouTube) (username : String) : Option String :=
  match yt.channelsListByUsername username with
  | .error _ => none
  | .ok items => items.head?

/-- Model of `get_channel_from_handle` (src/main.py:89-98): channel-typed search for
`"@" ++ handle` with `maxResults:=1`, return the first hit's
`snippet.channelId`; `None` on empty items or exception. -/
def get_channel_from_handle (yt : YouTube) (handle : String) : Option String :=
  match yt.searchChannels ("@" ++ handle) 1 with
  | .error _ => none
  | .ok items => items.head?

/-- The video-id extraction of the watch branch (src/main.py:51):
`url.split("v=")[-1].split("&")[0]`. -/
def code_video_id (url : String) : String :=
  ((pySplit ((pySplit url "v=").getLastD "") "&").headD "")

/-- The channel-id extraction of the channel branch (src/main.py:54):
`url.split("/channel/")[-1].strip()`. -/
def code_channel_id (url : String) : String :=
  pyStrip ((pySplit url "/channel/").getLastD "")

/-- The username extraction of the user branch (src/main.py:56):
`url.split("/user/")[-1].strip()`. -/
def code_username (url : String) : String :=
  pyStrip ((pySplit url "/user/").getLastD "")

/-- The handle extraction of the handle branch (src/main.py:59):
`url.split("@")[-1].strip()`. -/
def code_handle (url : String) : String :=
  pyStrip ((pySplit url "@").getLastD "")

/-- Model of `resolve_channel_id` (src/main.py:44-65): classify the URL by four
substring tests in order, extract the key and delegate; an unmatched URL
raises `ValueError`, caught by the surrounding `except` and turned into
`None` (the delegated lookups catch their own exceptions, so the
surrounding `except` only ever fires for the `ValueError`). -/
def resolve_channel_id (yt : YouTube) (url : String) : Option String :=
  if pyIn "youtube.com/watch?v=" url then
    get_channel_from_video yt (code_video_id url)
  else if pyIn "youtube.com/channel/" url then
    some (code_channel_id url)
  else if pyIn "youtube.com/user/" url then
    get_channel_from_username yt (code_username url)
  else if pyIn "youtube.com/@" url then
    get_channel_from_handle yt (code_handle url)
  else
    none

/-- Model of `summarize_text` (src/main.py:197-204): run the summarizer, return
`summary[0]["summary_text"]`; any exception yields `None`. -/
def summarize_text (yt : YouTube) (text : String) : Option String :=
  match yt.summarizer text with
  | .error _ => none
  | .ok s => some s

/-- Model of `analyze_sentiment` (src/main.py:206-213): run the sentiment pipeline,
return `sentiment[0]`; any exception yields `None`. -/
def analyze_sentiment (yt : YouTube) (text : String) : Option SentimentResult :=
  match yt.sentimentAnalyzer text with
  | .error _ => none
  | .ok r => some r

/-- The "no comments" sentinel dict (src/main.py:190): only the `author`
and `text` keys are present. -/
def noCommentsSentinel : CommentRecord :=
  { author := "No comments", text := "No comments available." }

/-- Model of `fetch_comments` (src/main.py:164-195): list comment threads with
`maxResults:=5`; per item build a four-key dict with the author, the text
and its two annotations; on zero items append the sentinel dict instead;
an exception anywhere in the `try` yields `[]`. -/
def fetch_comments (yt : YouTube) (video_id : String) : List CommentRecord :=
  match yt.commentThreadsList video_id 5 with
  | .error _ => []
  | .ok items =>
    if items.isEmpty then
      [noCommentsSentinel]
    else
      items.map fun c =>
        { author := c.authorDisplayName
          text := c.textDisplay
          summarized_comment := some (summarize_text yt c.textDisplay)
          sentiment := some (analyze_sentiment yt c.textDisplay) }

/-- Model of `fetch_channel_data` (src/main.py:100-123): list the channel by id and
project the snippet/statistics fields of the first item; `None` on empty
items or exception. -/
def fetch_channel_data (yt : YouTube) (channel_id : String) : Option ChannelData :=
  match yt.channelsListById channel_id with
  | .error _ => none
  | .ok [] => none
  | .ok (c :: _) =>
    some { title := c.title, description := c.description
           subscribers := c.subscriberCount, views := c.viewCount }

/-- Model of `fetch_latest_video_details` (src/main.py:125-162): date-ordered search
for the channel's newest video, annotate its description and attach its
comments; `None` on empty items or exception. -/
def fetch_latest_video_details (yt : YouTube) (channel_id : String) : Option VideoData :=
  match yt.searchLatestByChannel channel_id with
  | .error _ => none
  | .ok [] => none
  | .ok (v :: _) =>
    some { video_id := v.videoId
           title := v.title
           description := v.description
           published_at := v.publishedAt
           summarized_description := summarize_text yt v.description
           sentiment := analyze_sentiment yt v.description
           comments := fetch_comments yt v.videoId }

/-- What the Flask view renders: the result page, the index page with an
error message, or the bare index page. -/
inductive Page where
  | result (channel_data : Option ChannelData) (video_data : Option VideoData)
  | indexError (error : String)
  | indexPlain
deriving DecidableEq

/-- The POST branch of `index` (src/main.py:33-41).  Python's truthiness
test `if channel_id:` is false both for `None` and for the empty string. -/
def index_post (yt : YouTube) (url : String) : Page :=
  match resolve_channel_id yt url with
  | none => Page.indexError "Invalid YouTube URL"
  | some cid =>
    if cid == "" then Page.indexError "Invalid YouTube URL"
    else Page.result (fetch_channel_data yt cid) (fetch_latest_video_details yt cid)

/-- A test oracle whose lookup strategies echo the key they were asked
about, so that the key a routing branch delegated is visible in the
result; every other call raises. -/
def echoYT : YouTube where
  videosList := fun vid => .ok [vid]
  channelsListByUsername := fun u => .ok [u]
  searchChannels := fun q _ => .ok [q]
  channelsListById := fun _ => .error ()
  searchLatestByChannel := fun _ => .error ()
  commentThreadsList := fun _ _ => .error ()
  summarizer := fun _ => .error ()
  sentimentAnalyzer := fun _ => .error ()

/-- A test oracle on which every external call raises. -/
def errYT : YouTube where
  videosList := fun _ => .error ()
  channelsListByUsername := fun _ => .error ()
  searchChannels := fun _ _ => .error ()
  channelsListById := fun _ => .error ()
  searchLatestByChannel := fun _ => .error ()
  commentThreadsList := fun _ _ => .error ()
  summarizer := fun _ => .error ()
  sentimentAnalyzer := fun _ => .error ()

/-- A test oracle on which every external call returns zero items (and the
two annotators raise). -/
def emptyYT : YouTube where
  videosList := fun _ => .ok []
  channelsListByUsername := fun _ => .ok []
  searchChannels := fun _ _ => .ok []
  channelsListById := fun _ => .ok []
  searchLatestByChannel := fun _ => .ok []
  commentThreadsList := fun _ _ => .ok []
  summarizer := fun _ => .error ()
  sentimentAnalyzer := fun _ => .error ()

/-- The watch-URL video id as claim C1 describes it: the value of the
video-id query parameter, i.e. the characters following the
"youtube.com/watch?v=" marker up to the next '&' or the end of the
string.  Stated from the claim's words, for comparison with
`code_video_id`, which is stated from the source. -/
def spec_video_id (url : String) : String :=
  (pySplit ((pySplit url "youtube.com/watch?v=").getD 1 "") "&").headD ""

/-- A test oracle whose comment threads hold one comment by "alice" and
whose two annotators succeed. -/
def annotOkYT : YouTube where
  videosList := fun _ => .error ()
  channelsListByUsername := fun _ => .error ()
  searchChannels := fun _ _ => .error ()
  channelsListById := fun _ => .error ()
  searchLatestByChannel := fun _ => .error ()
  commentThreadsList := fun _ _ => .ok [⟨"alice", "hello"⟩]
  summarizer := fun t => .ok ("summary of " ++ t)
  sentimentAnalyzer := fun _ => .ok ⟨"POSITIVE", 1⟩

/-- The same comment threads as `annotOkYT`, but both annotators raise. -/
def annotFailYT : YouTube where
  videosList := fun _ => .error ()
  channelsListByUsername := fun _ => .error ()
  searchChannels := fun _ _ => .error ()
  channelsListById := fun _ => .error ()
  searchLatestByChannel := fun _ => .error ()
  commentThreadsList := fun _ _ => .ok [⟨"alice", "hello"⟩]
  summarizer := fun _ => .error ()
  sentimentAnalyzer := fun _ => .error ()

/-- C1: the claim reads `resolve_channel_id` as extracting, for every URL
containing "youtube.com/watch?v=", the value of the video-id query
parameter.  The source instead splits at the LAST occurrence of "v="
(`url.split("v=")[-1]`), so a URL whose later query string contains "v="
— here `&sv=XYZ` — is routed by `XYZ`, not by the `v` parameter's value
`ABC`: against the echo oracle the resolution yields the key that was
delegated, and it differs from the delegation of the claim's key. -/
theorem C1_counterexample :
    spec_video_id "https://youtube.com/watch?v=ABC&sv=XYZ" = "ABC" ∧
    code_video_id "https://youtube.com/watch?v=ABC&sv=XYZ" = "XYZ" ∧
    resolve_channel_id echoYT "https://youtube.com/watch?v=ABC&sv=XYZ" ≠
      get_channel_from_video echoYT
        (spec_video_id "https://youtube.com/watch?v=ABC&sv=XYZ") := by
  refine ⟨by decide, by decide, by decide⟩

/-- C1 (amended): for every URL containing "youtube.com/watch?v=",
`resolve_channel_id` extracts as the video id the characters after the
last occurrence of "v=" in the URL, up to the next '&' or the end of the
string, and delegates exactly that id to the video-path identity lookup,
returning its answer unchanged. -/
theorem C1_watch_extraction (yt : YouTube) (url : String)
    (h : pyIn "youtube.com/watch?v=" url = true) :
    resolve_channel_id yt url = get_channel_from_video yt (code_video_id url) := by
  simp [resolve_channel_id, h]

/-- Witness for C1 at the claim's own example URL, where the last "v="
is the video-id parameter and the two readings agree. -/
theorem C1_witness :
    pyIn "youtube.com/watch?v=" "https://youtube.com/watch?v=ABC&t=10" = true ∧
    code_video_id "https://youtube.com/watch?v=ABC&t=10" = "ABC" ∧
    resolve_channel_id echoYT "https://youtube.com/watch?v=ABC&t=10" =
      get_channel_from_video echoYT (code_video_id "https://youtube.com/watch?v=ABC&t=10") :=
  ⟨by decide, by decide,
    C1_watch_extraction echoYT "https://youtube.com/watch?v=ABC&t=10" (by decide)⟩

/-- C2: the four shape tests are checked in the fixed order watch-video,
channel-path, user-path, handle marker, and the first test that matches
alone decides the strategy: each branch's conclusion holds whenever its
test is true and every earlier test is false, regardless of any later
marker also present in the URL. -/
theorem C2_priority_order (yt : YouTube) (url : String) :
    (pyIn "youtube.com/watch?v=" url = true →
      resolve_channel_id yt url = get_channel_from_video yt (code_video_id url)) ∧
    (pyIn "youtube.com/watch?v=" url = false →
      pyIn "youtube.com/channel/" url = true →
      resolve_channel_id yt url = some (code_channel_id url)) ∧
    (pyIn "youtube.com/watch?v=" url = false →
      pyIn "youtube.com/channel/" url = false →
      pyIn "youtube.com/user/" url = true →
      resolve_channel_id yt url = get_channel_from_username yt (code_username url)) ∧
    (pyIn "youtube.com/watch?v=" url = false →
      pyIn "youtube.com/channel/" url = false →
      pyIn "youtube.com/user/" url = false →
      pyIn "youtube.com/@" url = true →
      resolve_channel_id yt url = get_channel_from_handle yt (code_handle url)) := by
  refine ⟨fun h1 => ?_, fun h1 h2 => ?_, fun h1 h2 h3 => ?_, fun h1 h2 h3 h4 => ?_⟩ <;>
    simp [resolve_channel_id, *]

/-- Witness for C2: a URL containing both the video-watch marker and the
channel-path marker is routed by the video path (the higher-priority
shape), not the channel path. -/
theorem C2_witness :
    pyIn "youtube.com/watch?v=" "https://youtube.com/watch?v=A&x=youtube.com/channel/UC1" = true ∧
    pyIn "youtube.com/channel/" "https://youtube.com/watch?v=A&x=youtube.com/channel/UC1" = true ∧
    resolve_channel_id echoYT "https://youtube.com/watch?v=A&x=youtube.com/channel/UC1" =
      get_channel_from_video echoYT
        (code_video_id "https://youtube.com/watch?v=A&x=youtube.com/channel/UC1") ∧
    resolve_channel_id echoYT "https://youtube.com/watch?v=A&x=youtube.com/channel/UC1" =
      some "A" :=
  ⟨by decide, by decide,
    (C2_priority_order echoYT "https://youtube.com/watch?v=A&x=youtube.com/channel/UC1").1
      (by decide),
    by decide⟩

/-- C3: a URL matching none of the four shapes resolves to `None` (the
`ValueError` raised at src/main.py:62 is caught at line 63) — never a
successful resolution, never an escaping exception — and the `index` POST
branch then renders the index page with the error "Invalid YouTube URL". -/
theorem C3_unrecognized (yt : YouTube) (url : String)
    (h1 : pyIn "youtube.com/watch?v=" url = false)
    (h2 : pyIn "youtube.com/channel/" url = false)
    (h3 : pyIn "youtube.com/user/" url = false)
    (h4 : pyIn "youtube.com/@" url = false) :
    resolve_channel_id yt url = none ∧
    index_post yt url = Page.indexError "Invalid YouTube URL" := by
  have hr : resolve_channel_id yt url = none := by
    simp [resolve_channel_id, h1, h2, h3, h4]
  exact ⟨hr, by simp [index_post, hr]⟩

/-- Witness for C3 at the spec's own scenario input `not-a-youtube-url`. -/
theorem C3_witness :
    (pyIn "youtube.com/watch?v=" "not-a-youtube-url" = false ∧
      pyIn "youtube.com/channel/" "not-a-youtube-url" = false ∧
      pyIn "youtube.com/user/" "not-a-youtube-url" = false ∧
      pyIn "youtube.com/@" "not-a-youtube-url" = false) ∧
    resolve_channel_id errYT "not-a-youtube-url" = none ∧
    index_post errYT "not-a-youtube-url" = Page.indexError "Invalid YouTube URL" :=
  ⟨⟨by decide, by decide, by decide, by decide⟩,
    C3_unrecognized errYT "not-a-youtube-url" (by decide) (by decide) (by decide) (by decide)⟩

/-- C4: when the comment-thread query returns zero items, `fetch_comments`
returns exactly the one-element list holding the "no comments" sentinel
dict, never the empty list. -/
theorem C4_zero_items_sentinel (yt : YouTube) (vid : String)
    (h : yt.commentThreadsList vid 5 = .ok []) :
    fetch_comments yt vid = [noCommentsSentinel] := by
  simp [fetch_comments, h]

/-- Witness for C4 on the oracle whose every call returns zero items. -/
theorem C4_witness :
    emptyYT.commentThreadsList "vid" 5 = .ok [] ∧
    fetch_comments emptyYT "vid" = [noCommentsSentinel] :=
  ⟨rfl, C4_zero_items_sentinel emptyYT "vid" rfl⟩

/-- C5: `fetch_comments` always returns a list (never `None`); when the
platform answers the `maxResults:=5` request with at most five items — the
request cap the API contract guarantees, so in particular when the video
has more than five comments and the platform returns the first five — the
result holds at most five records, one record per item in the platform's
own order (the author/text sequence of the output equals that of the
items, with no re-sorting), and exactly five records when five items were
returned. -/
theorem C5_cap_and_order (yt : YouTube) (vid : String)
    (items : List CommentThreadItem)
    (h : yt.commentThreadsList vid 5 = .ok items) (hcap : items.length ≤ 5) :
    (fetch_comments yt vid).length ≤ 5 ∧
    (items ≠ [] →
      (fetch_comments yt vid).map (fun r => (r.author, r.text)) =
        items.map (fun c => (c.authorDisplayName, c.textDisplay)) ∧
      (fetch_comments yt vid).length = items.length) ∧
    (items.length = 5 → (fetch_comments yt vid).length = 5) := by
  rcases items with _ | ⟨c, cs⟩
  · simp [fetch_comments, h]
  · have hm : fetch_comments yt vid = (c :: cs).map fun x =>
        ({ author := x.authorDisplayName
           text := x.textDisplay
           summarized_comment := some (summarize_text yt x.textDisplay)
           sentiment := some (analyze_sentiment yt x.textDisplay) } : CommentRecord) := by
      simp [fetch_comments, h]
    refine ⟨?_, fun _ => ⟨?_, ?_⟩, fun h5 => ?_⟩
    · simpa [hm] using hcap
    · simp [hm, List.map_map]
    · simp [hm]
    · simp [hm]
      simpa using h5

/-- Witness for C5 on a concrete oracle with one comment item. -/
theorem C5_witness :
    annotOkYT.commentThreadsList "v" 5 = .ok [⟨"alice", "hello"⟩] ∧
    ([(⟨"alice", "hello"⟩ : CommentThreadItem)].length ≤ 5 ∧
      ([(⟨"alice", "hello"⟩ : CommentThreadItem)] : List CommentThreadItem) ≠ []) ∧
    (fetch_comments annotOkYT "v").length ≤ 5 ∧
    (fetch_comments annotOkYT "v").map (fun r => (r.author, r.text)) =
      [(⟨"alice", "hello"⟩ : CommentThreadItem)].map
        (fun c => (c.authorDisplayName, c.textDisplay)) ∧
    (fetch_comments annotOkYT "v").length = 1 :=
  ⟨rfl, ⟨by decide, by decide⟩,
    (C5_cap_and_order annotOkYT "v" [⟨"alice", "hello"⟩] rfl (by decide)).1,
    ((C5_cap_and_order annotOkYT "v" [⟨"alice", "hello"⟩] rfl (by decide)).2.1
      (by decide)).1,
    ((C5_cap_and_order annotOkYT "v" [⟨"alice", "hello"⟩] rfl (by decide)).2.1
      (by decide)).2⟩

/-- C6: each of the three identity-lookup strategies yields `None` both
when its external query raises and when it returns zero items; the
returned value is the same `none` in both cases, so the caller cannot
distinguish them (the distinction exists only in the diagnostic print),
and no exception propagates (each strategy is a total function). -/
theorem C6_strategies_notfound (yt : YouTube) (k : String) :
    ((yt.videosList k = .error () ∨ yt.videosList k = .ok []) →
      get_channel_from_video yt k = none) ∧
    ((yt.channelsListByUsername k = .error () ∨ yt.channelsListByUsername k = .ok []) →
      get_channel_from_username yt k = none) ∧
    ((yt.searchChannels ("@" ++ k) 1 = .error () ∨ yt.searchChannels ("@" ++ k) 1 = .ok []) →
      get_channel_from_handle yt k = none) := by
  refine ⟨fun h => ?_, fun h => ?_, fun h => ?_⟩ <;> rcases h with h | h <;>
    simp [get_channel_from_video, get_channel_from_username, get_channel_from_handle, h]

/-- Witness for C6: all three strategies on the all-raising oracle and on
the zero-items oracle, six `none` outcomes. -/
theorem C6_witness :
    get_channel_from_video errYT "k" = none ∧
    get_channel_from_username errYT "k" = none ∧
    get_channel_from_handle errYT "k" = none ∧
    get_channel_from_video emptyYT "k" = none ∧
    get_channel_from_username emptyYT "k" = none ∧
    get_channel_from_handle emptyYT "k" = none :=
  ⟨(C6_strategies_notfound errYT "k").1 (Or.inl rfl),
    (C6_strategies_notfound errYT "k").2.1 (Or.inl rfl),
    (C6_strategies_notfound errYT "k").2.2 (Or.inl rfl),
    (C6_strategies_notfound emptyYT "k").1 (Or.inr rfl),
    (C6_strategies_notfound emptyYT "k").2.1 (Or.inr rfl),
    (C6_strategies_notfound emptyYT "k").2.2 (Or.inr rfl)⟩

/-- C7: `summarize_text` and `analyze_sentiment` are total (no exception
escapes them) and turn every backend failure into `None`; and the
author/text content of the records built by `fetch_comments` does not
depend on the annotators at all: two oracles that agree on the
comment-thread call — one annotating, one failing on every text — produce
record lists with identical author/text sequences of identical length, so
an annotation failure never prevents a comment record from being appended
with its other fields populated. -/
theorem C7_annotators_isolated (yt yt' : YouTube) (vid : String)
    (h : yt.commentThreadsList vid 5 = yt'.commentThreadsList vid 5) :
    (∀ t, yt.summarizer t = .error () → summarize_text yt t = none) ∧
    (∀ t, yt.sentimentAnalyzer t = .error () → analyze_sentiment yt t = none) ∧
    (fetch_comments yt vid).map (fun r => (r.author, r.text)) =
      (fetch_comments yt' vid).map (fun r => (r.author, r.text)) ∧
    (fetch_comments yt vid).length = (fetch_comments yt' vid).length := by
  refine ⟨fun t ht => by simp [summarize_text, ht],
    fun t ht => by simp [analyze_sentiment, ht], ?_, ?_⟩ <;>
  · unfold fetch_comments
    rw [h]
    rcases yt'.commentThreadsList vid 5 with _ | items
    · rfl
    · rcases items with _ | ⟨c, cs⟩
      · rfl
      · simp [List.map_map]

/-- Witness for C7: the annotating oracle and the failing oracle share the
comment-thread response; the record is still appended under failure, with
author and text intact and both annotation keys present holding `None`. -/
theorem C7_witness :
    summarize_text annotFailYT "hello" = none ∧
    analyze_sentiment annotFailYT "hello" = none ∧
    (fetch_comments annotOkYT "v").map (fun r => (r.author, r.text)) =
      (fetch_comments annotFailYT "v").map (fun r => (r.author, r.text)) ∧
    fetch_comments annotFailYT "v" =
      [{ author := "alice", text := "hello",
         summarized_comment := some none, sentiment := some none }] :=
  ⟨(C7_annotators_isolated annotFailYT annotFailYT "v" rfl).1 "hello" rfl,
    (C7_annotators_isolated annotFailYT annotFailYT "v" rfl).2.1 "hello" rfl,
    (C7_annotators_isolated annotOkYT annotFailYT "v" rfl).2.2.1,
    by decide⟩

/-- C8: a URL containing the channel-path marker (and not the video-watch
marker) resolves directly to the trailing path segment — the substring
after the last "/channel/" — trimmed of surrounding whitespace; no
external call is consulted: the result is identical under any two
oracles. -/
theorem C8_channel_direct (yt yt' : YouTube) (url : String)
    (h1 : pyIn "youtube.com/watch?v=" url = false)
    (h2 : pyIn "youtube.com/channel/" url = true) :
    resolve_channel_id yt url = some (code_channel_id url) ∧
    resolve_channel_id yt url = resolve_channel_id yt' url := by
  have e : ∀ z : YouTube, resolve_channel_id z url = some (code_channel_id url) :=
    fun z => by simp [resolve_channel_id, h1, h2]
  exact ⟨e yt, (e yt).trans (e yt').symm⟩

/-- Witness for C8: a channel URL with trailing whitespace resolves to the
trimmed segment, identically under the all-raising and the echo oracle. -/
theorem C8_witness :
    code_channel_id "https://youtube.com/channel/UC123 " = "UC123" ∧
    resolve_channel_id errYT "https://youtube.com/channel/UC123 " =
      some (code_channel_id "https://youtube.com/channel/UC123 ") ∧
    resolve_channel_id errYT "https://youtube.com/channel/UC123 " =
      resolve_channel_id echoYT "https://youtube.com/channel/UC123 " :=
  ⟨by decide,
    (C8_channel_direct errYT echoYT "https://youtube.com/channel/UC123 "
      (by decide) (by decide)).1,
    (C8_channel_direct errYT echoYT "https://youtube.com/channel/UC123 "
      (by decide) (by decide)).2⟩

/-- C9: the "no comments" sentinel dict carries only the `author` and
`text` keys — its `summarized_comment` and `sentiment` keys are absent
(outer `none`) — while every record built from a real comment item carries
both annotation keys (outer `isSome`). -/
theorem C9_sentinel_shape (yt : YouTube) (vid : String)
    (items : List CommentThreadItem)
    (h : yt.commentThreadsList vid 5 = .ok items) :
    (items = [] →
      fetch_comments yt vid = [noCommentsSentinel] ∧
      noCommentsSentinel.author = "No comments" ∧
      noCommentsSentinel.text = "No comments available." ∧
      noCommentsSentinel.summarized_comment = none ∧
      noCommentsSentinel.sentiment = none) ∧
    (items ≠ [] → ∀ r ∈ fetch_comments yt vid,
      r.summarized_comment.isSome ∧ r.sentiment.isSome) := by
  constructor
  · rintro rfl
    exact ⟨by simp [fetch_comments, h], rfl, rfl, rfl, rfl⟩
  · intro hne r hr
    rcases items with _ | ⟨c, cs⟩
    · exact absurd rfl hne
    · have hm : fetch_comments yt vid = (c :: cs).map fun x =>
          ({ author := x.authorDisplayName
             text := x.textDisplay
             summarized_comment := some (summarize_text yt x.textDisplay)
             sentiment := some (analyze_sentiment yt x.textDisplay) } : CommentRecord) := by
        simp [fetch_comments, h]
      rw [hm] at hr
      rcases List.mem_map.1 hr with ⟨x, _, rfl⟩
      exact ⟨rfl, rfl⟩

/-- Witness for C9: the sentinel case on the zero-items oracle and the
real-record case on the failing-annotator oracle. -/
theorem C9_witness :
    (fetch_comments emptyYT "v" = [noCommentsSentinel] ∧
      noCommentsSentinel.author = "No comments" ∧
      noCommentsSentinel.text = "No comments available." ∧
      noCommentsSentinel.summarized_comment = none ∧
      noCommentsSentinel.sentiment = none) ∧
    (∀ r ∈ fetch_comments annotFailYT "v",
      r.summarized_comment.isSome ∧ r.sentiment.isSome) :=
  ⟨(C9_sentinel_shape emptyYT "v" [] rfl).1 rfl,
    (C9_sentinel_shape annotFailYT "v" [⟨"alice", "hello"⟩] rfl).2 (by decide)⟩

/-- C10: when the comment-thread call raises, `fetch_comments` returns the
empty list (src/main.py:195), while the zero-items case returns the
one-element sentinel; the two outcomes differ, so the empty list is
reachable and distinguishes a request error from a video with genuinely
zero comments. -/
theorem C10_error_yields_empty (yt yt' : YouTube) (vid : String)
    (herr : yt.commentThreadsList vid 5 = .error ())
    (hzero : yt'.commentThreadsList vid 5 = .ok []) :
    fetch_comments yt vid = [] ∧
    fetch_comments yt' vid = [noCommentsSentinel] ∧
    fetch_comments yt vid ≠ fetch_comments yt' vid := by
  have h1 : fetch_comments yt vid = [] := by simp [fetch_comments, herr]
  have h2 : fetch_comments yt' vid = [noCommentsSentinel] := by simp [fetch_comments, hzero]
  refine ⟨h1, h2, ?_⟩
  rw [h1, h2]
  exact fun hc => List.noConfusion hc

/-- Witness for C10 on the all-raising and the zero-items oracles. -/
theorem C10_witness :
    fetch_comments errYT "v" = [] ∧
    fetch_comments emptyYT "v" = [noCommentsSentinel] ∧
    fetch_comments errYT "v" ≠ fetch_comments emptyYT "v" :=
  C10_error_yields_empty errYT emptyYT "v" rfl rfl
